import Mathlib

/-!
Verification of the hr-budget-planner budget projection and impact simulation
logic, shallowly embedded in Lean 4.

Monetary amounts are modelled as rationals (the source works with IEEE doubles,
but every number involved in the verified properties is exactly representable
and no property depends on rounding).  Month keys are "YYYY-MM" strings in the
source, totally ordered lexicographically; since the keys are zero padded this
order coincides with the componentwise order on (year, month) pairs, which is
how months are modelled here.  Dates "YYYY-MM-DD" become (year, month, day)
triples for the same reason.

The repository snapshot contains the React frontend only; the backend budget
engine (backend/app/services/budget_engine.py) is referenced by the README and
the API client but its source is absent.  Engine definitions below that are
reconstructed from the specification text carry a doc comment starting with
"Modelled from the spec:".  All other definitions are translated directly from
the frontend sources (Dashboard, OfferGate, BudgetManager, Requisitions,
format.ts).
-/

namespace HRBudget

/-- Three tier month health status used throughout the engine and the UI. -/
inductive Status where
  | green
  | yellow
  | red
deriving DecidableEq, Repr, BEq

/-- A calendar month key, the "YYYY-MM" time axis of the system. -/
structure MonthKey where
  year : ℕ
  month : ℕ
deriving DecidableEq, Repr, BEq

/-- A calendar date, source format "YYYY-MM-DD". -/
structure Date where
  year : ℕ
  month : ℕ
  day : ℕ
deriving DecidableEq, Repr, BEq

/-- Lexicographic order of zero padded "YYYY-MM" strings, as a Boolean test on
the (year, month) pair.  This is the `<=` used by the source on month keys. -/
def monthLe (a b : MonthKey) : Bool :=
  a.year < b.year || (a.year == b.year && a.month ≤ b.month)

/-- Strict version of `monthLe`. -/
def monthLt (a b : MonthKey) : Bool :=
  a.year < b.year || (a.year == b.year && a.month < b.month)

/-- Month of a date, the source's `start_date.substring(0, 7)`. -/
def Date.toMonth (d : Date) : MonthKey := ⟨d.year, d.month⟩

/-- Gregorian leap year test. -/
def isLeapYear (y : ℕ) : Bool :=
  y % 4 == 0 && (y % 100 != 0 || y % 400 == 0)

/-- Modelled from the spec: `daysInMonth(month)` of MonthArithmetic (§4.1),
the calendar day count of a month, leap years handled; the implementation in
backend/app/services/budget_engine.py is absent from the snapshot. -/
def daysInMonth (y m : ℕ) : ℕ :=
  if m == 2 then (if isLeapYear y then 29 else 28)
  else if m == 4 || m == 6 || m == 9 || m == 11 then 30
  else 31

/-- Modelled from the spec: `proRataFraction(startDate, month)` of
MonthArithmetic (§4.1).  A start strictly before the month charges the full
month (fraction 1); a start within the month on day d charges
(daysInMonth - d + 1) / daysInMonth; a start after the month contributes 0. -/
def proRataFraction (d : Date) (m : MonthKey) : ℚ :=
  if monthLt d.toMonth m then 1
  else if d.toMonth = m then
    (((daysInMonth m.year m.month : ℚ) - (d.day : ℚ) + 1) / (daysInMonth m.year m.month : ℚ))
  else 0

/-- Modelled from the spec: the HealthClassifier (§4.4) mapping of
(approved, remaining) to a status: RED when remaining is nonpositive, YELLOW
strictly under the 20 percent threshold, GREEN otherwise.  The classifier in
backend/app/services/budget_engine.py is absent from the snapshot; the README
documents the same three tiers. -/
def classify (approved remaining : ℚ) : Status :=
  if remaining ≤ 0 then Status.red
  else if remaining < 20/100 * approved then Status.yellow
  else Status.green

/-- Output record of the engine for one month (interface MonthHealth). -/
structure MonthHealth where
  approved : ℚ
  baseline : ℚ
  committed : ℚ
  pipelinePotential : ℚ
  remaining : ℚ
  status : Status
deriving DecidableEq, Repr

/-- Modelled from the spec: the MonthlySummaryBuilder assembly of one
MonthHealth record (§4.5): remaining is approved minus baseline minus
committed, and the status classifies (approved, remaining). -/
def mkMonthHealth (approved baseline committed pipeline : ℚ) : MonthHealth :=
  { approved := approved
    baseline := baseline
    committed := committed
    pipelinePotential := pipeline
    remaining := approved - baseline - committed
    status := classify approved (approved - baseline - committed) }

/-- An Actual record (realized spend) for one month. -/
structure ActualRec where
  month : MonthKey
  amount : ℚ
  finalized : Bool
deriving DecidableEq, Repr

/-- A Forecast record (predicted spend) for one month. -/
structure ForecastRec where
  month : MonthKey
  amount : ℚ
deriving DecidableEq, Repr

/-- An approved Budget record for one month. -/
structure BudgetRec where
  month : MonthKey
  approvedAmount : ℚ
deriving DecidableEq, Repr

/-- Tag telling which source the resolved baseline came from. -/
inductive BaselineSource where
  | fromActual
  | fromForecast
  | fromNone
deriving DecidableEq, Repr

/-- Modelled from the spec: `resolveBaseline(actual?, forecast?)` of the
BaselineResolver (§4.2): an Actual wins regardless of its finalized flag, else
a Forecast, else amount 0 tagged "none".  The resolver in
backend/app/services/budget_engine.py is absent from the snapshot. -/
def resolveBaseline (a : Option ActualRec) (f : Option ForecastRec) : ℚ × BaselineSource :=
  match a with
  | some ar => (ar.amount, BaselineSource.fromActual)
  | none =>
    match f with
    | some fr => (fr.amount, BaselineSource.fromForecast)
    | none => (0, BaselineSource.fromNone)

/-- An engine side commitment item: an accepted offer with a proposed monthly
cost, an optional negotiated final cost, and an optional start date. -/
structure EOffer where
  proposedMonthlyCost : ℚ
  finalMonthlyCost : Option ℚ
  startDate : Option Date
deriving DecidableEq, Repr

/-- Modelled from the spec: `cost(offer)` of the CommitmentAggregator (§4.3)
prefers the final monthly cost when set, else the proposed monthly cost. -/
def offerCost (o : EOffer) : ℚ :=
  o.finalMonthlyCost.getD o.proposedMonthlyCost

/-- Modelled from the spec: the effective start of an offer; an offer with no
start date is treated as starting at the beginning of time (§4.3). -/
def effectiveStart (o : EOffer) : Date :=
  o.startDate.getD ⟨0, 1, 1⟩

/-- Whether a date falls on or before the last day of a month: true exactly
when the date's month key is at most the given month. -/
def startsByEndOf (d : Date) (m : MonthKey) : Bool :=
  monthLe d.toMonth m

/-- Modelled from the spec: `committedForMonth(month, acceptedOffers,
overheadMultiplier)` of the CommitmentAggregator (§4.3): a reduction over the
offer list that, for each offer whose effective start is on or before the last
day of the month, adds cost times overhead multiplier times the pro rata
fraction.  The aggregator in backend/app/services/budget_engine.py is absent
from the snapshot. -/
def committedForMonth (m : MonthKey) (offers : List EOffer) (mult : ℚ) : ℚ :=
  offers.foldl
    (fun acc o =>
      if startsByEndOf (effectiveStart o) m then
        acc + offerCost o * mult * proRataFraction (effectiveStart o) m
      else acc)
    0

/-!  Frontend data as the components consume it.  Offer rows carry the fields
the OfferGate chart reads; requisition rows carry the fields the OfferGate
chart and the Requisitions pages read. -/

/-- Requisition statuses (interface Requisition in the types module). -/
inductive ReqStatus where
  | draft
  | rOpen
  | interviewing
  | offerPending
  | filled
  | cancelled
deriving DecidableEq, Repr, BEq

/-- The fields of an offer row used by the OfferGate chart: the proposed
monthly cost and the optional start date. -/
structure SrcOffer where
  proposedMonthlyCost : ℚ
  startDate : Option Date
deriving DecidableEq, Repr

/-- The fields of a requisition row used by the OfferGate chart and the
Requisitions pages. -/
structure SrcReq where
  status : ReqStatus
  estimatedMonthlyCost : Option ℚ
  jobCatalogCost : Option ℚ
  targetStartMonth : Option MonthKey
deriving DecidableEq, Repr

/-- JavaScript's `x || b` applied to an optional numeric field: a missing or
zero value falls through to the default. -/
def jsOr (a : Option ℚ) (b : ℚ) : ℚ :=
  match a with
  | some x => if x = 0 then b else x
  | none => b

/-- Base cost of a requisition row as the OfferGate chart computes it:
`req.estimated_monthly_cost || req.job_catalog?.monthly_cost || 0`. -/
def reqBaseCost (r : SrcReq) : ℚ :=
  jsOr r.estimatedMonthlyCost (jsOr r.jobCatalogCost 0)

/-- OfferGate chart (part_002 lines 328 to 333): the selected offers' impact on
one month.  An offer counts only when it has a start date whose month prefix is
at most the chart month; it then contributes its proposed monthly cost (a
missing or zero cost counting as 0) times the overhead multiplier. -/
def offerAmount (m : MonthKey) (mult : ℚ) (offers : List SrcOffer) : ℚ :=
  offers.foldl
    (fun sum o =>
      match o.startDate with
      | some d => if monthLe d.toMonth m then sum + o.proposedMonthlyCost * mult else sum
      | none => sum)
    0

/-- OfferGate chart (part_002 lines 336 to 344): the selected requisitions'
impact on one month.  A requisition with no target start month is given the
start month 2000-01, so it counts toward every chart month. -/
def reqAmount (m : MonthKey) (mult : ℚ) (reqs : List SrcReq) : ℚ :=
  reqs.foldl
    (fun sum r =>
      let startMonth := r.targetStartMonth.getD ⟨2000, 1⟩
      if monthLe startMonth m then sum + reqBaseCost r * mult else sum)
    0

/-- One month's stacked chart segments. -/
structure ChartEntry where
  alocado : ℚ
  naoAlocado : ℚ
  selecionadas : ℚ
  excedente : ℚ
deriving DecidableEq, Repr

/-- The stacked chart decomposition of OfferGate (part_002 lines 348 to 353);
the Dashboard (part_004 lines 141 to 152) computes the identical shape with the
simulation amount in place of the selected amount. -/
def chartEntry (budgetAmount alocadoAmount selectedAmount : ℚ) : ChartEntry :=
  let alocadoDisplay := min alocadoAmount budgetAmount
  let alocadoExcess := max 0 (alocadoAmount - budgetAmount)
  let remainingAfterAlocado := max 0 (budgetAmount - alocadoAmount)
  let selectedWithinBudget := min selectedAmount remainingAfterAlocado
  let naoAlocado := max 0 (budgetAmount - alocadoAmount - selectedWithinBudget)
  let excedente := alocadoExcess + max 0 (selectedAmount - selectedWithinBudget)
  ⟨alocadoDisplay, naoAlocado, selectedWithinBudget, excedente⟩

/-- Dashboard (part_004 lines 113 to 117): the last known actual, obtained in
the source by sorting the actuals by month descending and taking the head; with
at most one Actual per month this is the element with the greatest month key
(first such element kept on equal keys), or 0 when there are no actuals. -/
def lastKnownActual (actuals : List ActualRec) : ℚ :=
  match actuals with
  | [] => 0
  | a :: rest => (rest.foldl (fun best x => if monthLt best.month x.month then x else best) a).amount

/-- Dashboard chart (part_004 line 127): `actual?.amount || lastKnownActual` —
the month's allocated amount falls back to the last known actual when the month
has no Actual record (or a zero one, JavaScript falsiness). -/
def dashAlocado (m : MonthKey) (actuals : List ActualRec) : ℚ :=
  match actuals.find? (fun a => a.month == m) with
  | some a => if a.amount = 0 then lastKnownActual actuals else a.amount
  | none => lastKnownActual actuals

/-- OfferGate chart (part_002 line 325): `actual?.amount || 0` — the month's
allocated amount is the month's Actual amount, or 0 when absent. -/
def gateAlocado (m : MonthKey) (actuals : List ActualRec) : ℚ :=
  match actuals.find? (fun a => a.month == m) with
  | some a => if a.amount = 0 then 0 else a.amount
  | none => 0

/-- Whether a requisition is in the in progress set of the Requisitions pages:
`['OPEN', 'INTERVIEWING'].includes(r.status)`. -/
def inProgress : ReqStatus → Bool
  | ReqStatus.rOpen => true
  | ReqStatus.interviewing => true
  | _ => false

/-- Requisitions page, first variant (format.ts lines 515 to 517): pipeline
potential as the sum of raw estimated monthly costs of open or interviewing
requisitions, with no overhead multiplier. -/
def pipelinePotentialNoOverhead (reqs : List SrcReq) : ℚ :=
  (reqs.filter (fun r => inProgress r.status)).foldl
    (fun sum r => sum + r.estimatedMonthlyCost.getD 0) 0

/-- Requisitions page, second variant (format.ts lines 969 to 971): pipeline
potential as the sum of estimated costs (falling back to the job catalog cost)
times the overhead multiplier over open or interviewing requisitions. -/
def pipelinePotentialWithOverhead (reqs : List SrcReq) (mult : ℚ) : ℚ :=
  (reqs.filter (fun r => inProgress r.status)).foldl
    (fun sum r => sum + jsOr r.estimatedMonthlyCost (jsOr r.jobCatalogCost 0) * mult) 0

/-- Payload of a budget create call from the BudgetManager. -/
structure BudgetPayload where
  month : MonthKey
  approvedAmount : ℚ
deriving DecidableEq, Repr

/-- Payload of an actual create call from the BudgetManager. -/
structure ActualPayload where
  month : MonthKey
  amount : ℚ
deriving DecidableEq, Repr

/-- BudgetManager.saveBudget (part_000 lines 65 to 78): the parsed text (none
models NaN) is rejected when missing or nonpositive, otherwise the create API
is invoked with it; the result is the payload sent, or none for no call. -/
def saveBudget (m : MonthKey) (parsed : Option ℚ) : Option BudgetPayload :=
  match parsed with
  | none => none
  | some v => if v ≤ 0 then none else some ⟨m, v⟩

/-- BudgetManager.saveActual (part_000 lines 80 to 92): same guard as
`saveBudget`, sending the actuals create payload. -/
def saveActual (m : MonthKey) (parsed : Option ℚ) : Option ActualPayload :=
  match parsed with
  | none => none
  | some v => if v ≤ 0 then none else some ⟨m, v⟩

/-- EditableCell.save (part_001 lines 33 to 46): onSave is invoked exactly when
the parsed text is a number strictly greater than 0 and different from the
currently displayed value; the result is the value passed to onSave, or none
for no call. -/
def editableCellSave (value : ℚ) (parsed : Option ℚ) : Option ℚ :=
  match parsed with
  | none => none
  | some p => if 0 < p ∧ p ≠ value then some p else none

/-!  Impact simulator, modelled from the spec (§4.6): the simulator itself
lives in the absent backend; the MonthImpact output shape is the frontend's
interface MonthImpact (part_005 lines 122 to 130). -/

/-- Boolean test for a month transitioning into RED: the after status is red
while the before status is not. -/
def transitionToRed (p : Status × Status) : Bool :=
  p.2 == Status.red && p.1 != Status.red

/-- Modelled from the spec: the bottleneck flagging of §4.6 over the
chronological sequence of (statusBefore, statusAfter) pairs; the accumulator
records whether a bottleneck was already flagged, so only the first transition
into RED is marked. -/
def markBottlenecks (found : Bool) : List (Status × Status) → List Bool
  | [] => []
  | p :: rest =>
    let hit := !found && transitionToRed p
    hit :: markBottlenecks (found || hit) rest

/-- Output record of one simulated month (interface MonthImpact). -/
structure MonthImpactRec where
  month : MonthKey
  remainingBefore : ℚ
  remainingAfter : ℚ
  delta : ℚ
  statusBefore : Status
  statusAfter : Status
  isBottleneck : Bool
deriving DecidableEq, Repr

/-- The per month records the summary builder and simulator consume for one
org unit, with the unit's overhead multiplier. -/
structure EngineInputs where
  budgets : List BudgetRec
  forecasts : List ForecastRec
  actuals : List ActualRec
  mult : ℚ
deriving Repr

/-- Approved budget looked up for a month, 0 when absent (§4.5). -/
def approvedFor (inp : EngineInputs) (m : MonthKey) : ℚ :=
  ((inp.budgets.find? (fun b => b.month == m)).map (fun b => b.approvedAmount)).getD 0

/-- Baseline resolved for a month from the month's optional Actual and
Forecast records (§4.5 calling §4.2). -/
def baselineFor (inp : EngineInputs) (m : MonthKey) : ℚ :=
  (resolveBaseline (inp.actuals.find? (fun a => a.month == m))
    (inp.forecasts.find? (fun f => f.month == m))).1

/-- Modelled from the spec: the remaining amount of one month for a given
commitment set, approved minus baseline minus committed (§4.4, §4.5). -/
def remainingFor (inp : EngineInputs) (offers : List EOffer) (m : MonthKey) : ℚ :=
  approvedFor inp m - baselineFor inp m - committedForMonth m offers inp.mult

/-- Status of one month for a given commitment set. -/
def statusFor (inp : EngineInputs) (offers : List EOffer) (m : MonthKey) : Status :=
  classify (approvedFor inp m) (remainingFor inp offers m)

/-- The month k months after the given month (months numbered 1 to 12). -/
def addMonths (m : MonthKey) (k : ℕ) : MonthKey :=
  let idx := m.year * 12 + (m.month - 1) + k
  ⟨idx / 12, idx % 12 + 1⟩

/-- The rolling window of n months starting at a month, in chronological
order. -/
def monthsWindow (start : MonthKey) (n : ℕ) : List MonthKey :=
  (List.range n).map (addMonths start)

/-- Modelled from the spec: the before and after projection of §4.6 across a
window of months, emitting one MonthImpact per month with the bottleneck flag
of `markBottlenecks`. -/
def buildImpacts (inp : EngineInputs) (before after : List EOffer)
    (months : List MonthKey) : List MonthImpactRec :=
  let statuses := months.map (fun m => (statusFor inp before m, statusFor inp after m))
  List.zipWith
    (fun m flag =>
      { month := m
        remainingBefore := remainingFor inp before m
        remainingAfter := remainingFor inp after m
        delta := remainingFor inp after m - remainingFor inp before m
        statusBefore := statusFor inp before m
        statusAfter := statusFor inp after m
        isBottleneck := flag })
    months (markBottlenecks false statuses)

/-- An offer as stored in the database, addressed by id. -/
structure StoredOffer where
  id : ℕ
  offer : EOffer
deriving DecidableEq, Repr

/-- Modelled from the spec: resolution of candidate offer ids against the
store; any id that does not resolve fails the whole request (§4.6). -/
def resolveAll (db : List StoredOffer) : List ℕ → Option (List EOffer)
  | [] => some []
  | i :: rest =>
    match db.find? (fun s => s.id == i), resolveAll db rest with
    | some s, some l => some (s.offer :: l)
    | _, _ => none

/-- Modelled from the spec: `previewImpact(candidateOfferIds, monthsAhead)` of
the ImpactSimulator (§4.6, §7): a months ahead count at most 0 or an
unresolvable candidate id reports InvalidRequestError and returns no result;
otherwise the full before and after projection over the window is returned,
the after set being the accepted offers plus the resolved candidates. -/
def previewImpact (inp : EngineInputs) (db : List StoredOffer)
    (accepted : List EOffer) (start : MonthKey) (ids : List ℕ)
    (monthsAhead : ℤ) : Except String (List MonthImpactRec) :=
  if monthsAhead ≤ 0 then Except.error "InvalidRequestError"
  else
    match resolveAll db ids with
    | none => Except.error "InvalidRequestError"
    | some cands =>
      Except.ok (buildImpacts inp accepted (accepted ++ cands)
        (monthsWindow start monthsAhead.toNat))

/-- A hypothetical position supplied to the what if preview. -/
structure HypoPosition where
  monthlyCost : ℚ
  startDate : Option Date
deriving DecidableEq, Repr

/-- Modelled from the spec: `previewNewPositions` of the ImpactSimulator
(§4.6): identical mechanics to `previewImpact`, the after set being the
accepted offers plus the supplied hypothetical positions. -/
def previewNewPositions (inp : EngineInputs) (accepted : List EOffer)
    (start : MonthKey) (positions : List HypoPosition)
    (monthsAhead : ℤ) : Except String (List MonthImpactRec) :=
  if monthsAhead ≤ 0 then Except.error "InvalidRequestError"
  else
    let extras := positions.map (fun p => EOffer.mk p.monthlyCost none p.startDate)
    Except.ok (buildImpacts inp accepted (accepted ++ extras)
      (monthsWindow start monthsAhead.toNat))

/-!  Helper lemmas rewriting the source's reductions as sums of mapped terms,
so that filtering, ordering and single counting arguments become list algebra. -/

section Helpers

variable {α : Type}

theorem foldl_add_shift (g : α → ℚ) :
    ∀ (l : List α) (s : ℚ), l.foldl (fun acc x => acc + g x) s = s + (l.map g).sum
  | [], s => by simp
  | a :: t, s => by
    rw [List.foldl_cons, foldl_add_shift g t (s + g a)]
    simp [add_assoc]

theorem foldl_ite_sum (p : α → Bool) (g : α → ℚ) :
    ∀ (l : List α) (s : ℚ),
      l.foldl (fun acc x => if p x then acc + g x else acc) s
        = s + ((l.filter p).map g).sum
  | [], s => by simp
  | a :: t, s => by
    by_cases h : p a <;>
      simp [List.foldl_cons, List.filter_cons, h, foldl_ite_sum p g t, add_assoc]

theorem sum_filter_map (p : α → Bool) (g : α → ℚ) :
    ∀ l : List α, ((l.filter p).map g).sum = (l.map (fun x => if p x then g x else 0)).sum
  | [] => by simp
  | a :: t => by
    by_cases h : p a <;> simp [List.filter_cons, h, sum_filter_map p g t]

end Helpers

/-- Whether an offer row counts toward a chart month in the OfferGate chart:
it must have a start date, whose month prefix is at most the chart month. -/
def countsOffer (m : MonthKey) (o : SrcOffer) : Bool :=
  match o.startDate with
  | some d => monthLe d.toMonth m
  | none => false

/-- Whether a requisition row counts toward a chart month in the OfferGate
chart: its target start month, defaulted to 2000-01, is at most the month. -/
def countsReq (m : MonthKey) (r : SrcReq) : Bool :=
  monthLe (r.targetStartMonth.getD ⟨2000, 1⟩) m

theorem offerAmount_eq_sum (m : MonthKey) (mult : ℚ) (offers : List SrcOffer) :
    offerAmount m mult offers
      = ((offers.filter (countsOffer m)).map (fun o => o.proposedMonthlyCost * mult)).sum := by
  have hfun :
      (fun (sum : ℚ) (o : SrcOffer) =>
          match o.startDate with
          | some d => if monthLe d.toMonth m then sum + o.proposedMonthlyCost * mult else sum
          | none => sum)
        = fun (sum : ℚ) (o : SrcOffer) =>
            if countsOffer m o then sum + o.proposedMonthlyCost * mult else sum := by
    funext sum o
    cases hsd : o.startDate <;> simp [countsOffer, hsd]
  unfold offerAmount
  rw [hfun, foldl_ite_sum, zero_add]

theorem reqAmount_eq_sum (m : MonthKey) (mult : ℚ) (reqs : List SrcReq) :
    reqAmount m mult reqs
      = ((reqs.filter (countsReq m)).map (fun r => reqBaseCost r * mult)).sum := by
  unfold reqAmount
  rw [show (fun (sum : ℚ) (r : SrcReq) =>
        let startMonth := r.targetStartMonth.getD ⟨2000, 1⟩
        if monthLe startMonth m then sum + reqBaseCost r * mult else sum)
      = fun (sum : ℚ) (r : SrcReq) =>
        if countsReq m r then sum + reqBaseCost r * mult else sum from rfl]
  rw [foldl_ite_sum, zero_add]

theorem committedForMonth_eq_sum (m : MonthKey) (offers : List EOffer) (mult : ℚ) :
    committedForMonth m offers mult
      = ((offers.filter (fun o => startsByEndOf (effectiveStart o) m)).map
          (fun o => offerCost o * mult * proRataFraction (effectiveStart o) m)).sum := by
  unfold committedForMonth
  rw [foldl_ite_sum, zero_add]

theorem markBottlenecks_length :
    ∀ (found : Bool) (l : List (Status × Status)),
      (markBottlenecks found l).length = l.length
  | _, [] => rfl
  | found, p :: t => by simp [markBottlenecks, markBottlenecks_length _ t]

theorem markBottlenecks_true_get :
    ∀ (l : List (Status × Status)) (i : ℕ) (h : i < (markBottlenecks true l).length),
      (markBottlenecks true l).get ⟨i, h⟩ = false
  | [], i, h => absurd h (by simp [markBottlenecks])
  | p :: t, 0, h => by simp [markBottlenecks]
  | p :: t, i + 1, h => by
    have ht : i < (markBottlenecks true t).length := by
      simpa [markBottlenecks] using h
    simpa [markBottlenecks] using markBottlenecks_true_get t i ht

theorem markBottlenecks_get_iff :
    ∀ (l : List (Status × Status)) (i : ℕ)
      (h : i < (markBottlenecks false l).length) (h2 : i < l.length),
      ((markBottlenecks false l).get ⟨i, h⟩ = true ↔
        (transitionToRed (l.get ⟨i, h2⟩) = true
          ∧ (l.take i).all (fun p => !transitionToRed p) = true))
  | [], i, h, _ => absurd h (by simp [markBottlenecks])
  | p :: t, 0, h, h2 => by
    by_cases hb : transitionToRed p <;> simp [markBottlenecks, hb]
  | p :: t, i + 1, h, h2 => by
    by_cases hb : transitionToRed p
    · have ht : i < (markBottlenecks true t).length := by
        simpa [markBottlenecks, hb] using h
      have hfalse : (markBottlenecks true t)[i] = false := by
        simpa [List.get_eq_getElem] using markBottlenecks_true_get t i ht
      simp [markBottlenecks, hb, hfalse]
    · have ht : i < (markBottlenecks false t).length := by
        simpa [markBottlenecks, hb] using h
      have h2t : i < t.length := by simpa using h2
      have := markBottlenecks_get_iff t i ht h2t
      simpa [markBottlenecks, hb] using this

theorem resolveAll_eq_none (db : List StoredOffer) :
    ∀ (ids : List ℕ) (i : ℕ), i ∈ ids →
      db.find? (fun s => s.id == i) = none → resolveAll db ids = none
  | [], i, hi, _ => absurd hi (List.not_mem_nil i)
  | a :: t, i, hi, hfind => by
    rcases List.mem_cons.mp hi with rfl | hmem
    · simp [resolveAll, hfind]
    · have := resolveAll_eq_none db t i hmem hfind
      cases hfa : db.find? (fun s => s.id == a) <;> simp [resolveAll, hfa, this]

theorem buildImpacts_length (inp : EngineInputs) (before after : List EOffer)
    (months : List MonthKey) :
    (buildImpacts inp before after months).length = months.length := by
  unfold buildImpacts
  rw [List.length_zipWith, markBottlenecks_length, List.length_map, min_self]

theorem buildImpacts_get_month (inp : EngineInputs) (before after : List EOffer)
    (months : List MonthKey) (k : ℕ)
    (hk : k < (buildImpacts inp before after months).length) (hk2 : k < months.length) :
    ((buildImpacts inp before after months).get ⟨k, hk⟩).month = months.get ⟨k, hk2⟩ := by
  unfold buildImpacts at hk ⊢
  simp only [List.get_eq_getElem, List.getElem_zipWith]

/-!  Claim theorems. -/

/-- C1 (counterexample): a month with approved budget 0 and nothing spent or
committed has remaining 0, which satisfies the claim's GREEN condition
(remaining at least 20 percent of approved) while the classifier returns RED
(remaining at most 0 takes precedence), so the claimed GREEN equivalence fails
on this record. -/
theorem c1_green_iff_fails_at_zero_budget :
    20/100 * (mkMonthHealth 0 0 0 0).approved ≤ (mkMonthHealth 0 0 0 0).remaining
    ∧ (mkMonthHealth 0 0 0 0).status = Status.red
    ∧ Status.red ≠ Status.green := by
  refine ⟨by norm_num [mkMonthHealth], by norm_num [mkMonthHealth, classify], by simp⟩

/-- C1 (amended): in every month health record, remaining equals approved
minus baseline minus committed exactly and the status classifies (approved,
remaining); RED holds if and only if remaining is nonpositive, YELLOW if and
only if remaining is strictly between 0 and 20 percent of approved, and — for
months with a positive approved budget — GREEN if and only if remaining is at
least 20 percent of approved; the four concrete classifications of the claim
hold. -/
theorem c1_health_classification (approved baseline committed pipeline : ℚ) :
    (mkMonthHealth approved baseline committed pipeline).remaining
        = approved - baseline - committed
    ∧ (mkMonthHealth approved baseline committed pipeline).status
        = classify approved (approved - baseline - committed)
    ∧ (∀ remaining : ℚ, classify approved remaining = Status.red ↔ remaining ≤ 0)
    ∧ (∀ remaining : ℚ, classify approved remaining = Status.yellow ↔
        0 < remaining ∧ remaining < 20/100 * approved)
    ∧ (0 < approved → ∀ remaining : ℚ, (classify approved remaining = Status.green ↔
        20/100 * approved ≤ remaining))
    ∧ classify 1000 200 = Status.green
    ∧ classify 1000 (19999/100) = Status.yellow
    ∧ classify 1000 0 = Status.red
    ∧ classify 1000 (-1) = Status.red := by
  refine ⟨rfl, rfl, ?_, ?_, ?_, ?_, ?_, ?_, ?_⟩
  · intro remaining
    unfold classify
    split_ifs with h1 h2 <;> simp_all
  · intro remaining
    unfold classify
    split_ifs with h1 h2 <;> simp_all
  · intro ha remaining
    unfold classify
    split_ifs with h1 h2
    · exact iff_of_false (by simp) (by intro hc; linarith)
    · exact iff_of_false (by simp) (by intro hc; linarith)
    · exact iff_of_true rfl (by linarith)
  · norm_num [classify]
  · norm_num [classify]
  · norm_num [classify]
  · norm_num [classify]

/-- C1 (witness): the amended GREEN equivalence applied at approved 1000,
baseline 0, committed 800: remaining 200 is exactly the 20 percent threshold
and the status is GREEN. -/
theorem c1_health_classification_witness :
    (0 : ℚ) < 1000
    ∧ (classify 1000 200 = Status.green ↔ (20/100 : ℚ) * 1000 ≤ 200) := by
  refine ⟨by norm_num, ?_⟩
  exact (c1_health_classification 1000 0 800 0).2.2.2.2.1 (by norm_num) 200

/-- C2 (counterexample): the Dashboard chart carries the last known actual
forward: with a single Actual of 5000 recorded for 2026-03 and no Actual and
no Forecast for 2026-01, the Dashboard allocated amount for 2026-01 is 5000,
not the claimed 0. -/
theorem c2_dashboard_carries_forward :
    ([⟨⟨2026, 3⟩, 5000, false⟩] : List ActualRec).find?
        (fun a => a.month == (⟨2026, 1⟩ : MonthKey)) = none
    ∧ dashAlocado ⟨2026, 1⟩ [⟨⟨2026, 3⟩, 5000, false⟩] = 5000
    ∧ (5000 : ℚ) ≠ 0 := by
  refine ⟨by decide, by decide, by norm_num⟩

/-- C2 (amended): the baseline resolver prefers an Actual regardless of its
finalized flag, then a Forecast, then amount 0 tagged none; the OfferGate
chart indeed uses 0 for a month with no Actual record, but the Dashboard chart
instead carries the last known actual forward to months lacking an Actual. -/
theorem c2_baseline_resolution :
    (∀ (a : ActualRec) (f : Option ForecastRec),
        resolveBaseline (some a) f = (a.amount, BaselineSource.fromActual))
    ∧ (∀ f : ForecastRec,
        resolveBaseline none (some f) = (f.amount, BaselineSource.fromForecast))
    ∧ resolveBaseline none none = ((0 : ℚ), BaselineSource.fromNone)
    ∧ (∀ (m : MonthKey) (actuals : List ActualRec),
        actuals.find? (fun a => a.month == m) = none →
          dashAlocado m actuals = lastKnownActual actuals)
    ∧ (∀ (m : MonthKey) (actuals : List ActualRec),
        actuals.find? (fun a => a.month == m) = none →
          gateAlocado m actuals = 0) := by
  refine ⟨fun a f => rfl, fun f => rfl, rfl, ?_, ?_⟩
  · intro m actuals h
    unfold dashAlocado
    rw [h]
  · intro m actuals h
    unfold gateAlocado
    rw [h]

/-- C2 (witness): the Dashboard fallback applied to the concrete input of the
counterexample: for 2026-01 with no Actual, the Dashboard shows the last known
actual. -/
theorem c2_baseline_resolution_witness :
    dashAlocado ⟨2026, 1⟩ [⟨⟨2026, 3⟩, 5000, false⟩]
      = lastKnownActual [⟨⟨2026, 3⟩, 5000, false⟩] :=
  c2_baseline_resolution.2.2.2.1 ⟨2026, 1⟩ [⟨⟨2026, 3⟩, 5000, false⟩] (by decide)

/-- C3: committedForMonth is exactly the sum, over the offers whose effective
start is on or before the last day of the month, of cost times overhead
multiplier times pro rata fraction; the cost prefers the final monthly cost
when set, else the proposed cost; and a start within the month on day d gives
the fraction (daysInMonth - d + 1) / daysInMonth. -/
theorem c3_committed_for_month (m : MonthKey) (offers : List EOffer) (mult : ℚ) :
    committedForMonth m offers mult
      = ((offers.filter (fun o => startsByEndOf (effectiveStart o) m)).map
          (fun o => offerCost o * mult * proRataFraction (effectiveStart o) m)).sum
    ∧ (∀ (o : EOffer) (c : ℚ), o.finalMonthlyCost = some c → offerCost o = c)
    ∧ (∀ o : EOffer, o.finalMonthlyCost = none → offerCost o = o.proposedMonthlyCost)
    ∧ (∀ d : ℕ, proRataFraction ⟨m.year, m.month, d⟩ m
        = ((daysInMonth m.year m.month : ℚ) - (d : ℚ) + 1)
            / (daysInMonth m.year m.month : ℚ)) := by
  obtain ⟨y, mo⟩ := m
  refine ⟨committedForMonth_eq_sum _ offers mult, ?_, ?_, ?_⟩
  · intro o c h
    unfold offerCost
    rw [h]
    rfl
  · intro o h
    unfold offerCost
    rw [h]
    rfl
  · intro d
    unfold proRataFraction Date.toMonth monthLt
    simp

/-- C3 (witness): an offer with final cost 1200 starting 2026-03-15 committed
against 2026-03 with multiplier 1: the month has 31 days, so the single term
is 1200 times 17/31. -/
theorem c3_committed_for_month_witness :
    offerCost ⟨1000, some 1200, some ⟨2026, 3, 15⟩⟩ = 1200
    ∧ proRataFraction ⟨2026, 3, 15⟩ ⟨2026, 3⟩
        = ((daysInMonth 2026 3 : ℚ) - (15 : ℚ) + 1) / (daysInMonth 2026 3 : ℚ) := by
  refine ⟨(c3_committed_for_month ⟨2026, 3⟩ [] 1).2.1 _ 1200 rfl, ?_⟩
  exact (c3_committed_for_month ⟨2026, 3⟩ [] 1).2.2.2 15

/-- C4: across the chronological before and after status pairs, the bottleneck
flag is true at a position exactly when that month's after status is RED while
its before status is not and no earlier month makes such a transition; and if
no month in the window transitions into RED then no position is flagged. -/
theorem c4_first_red_transition (l : List (Status × Status)) (i : ℕ)
    (h : i < (markBottlenecks false l).length) (h2 : i < l.length) :
    ((markBottlenecks false l).get ⟨i, h⟩ = true ↔
      (transitionToRed (l.get ⟨i, h2⟩) = true
        ∧ (l.take i).all (fun p => !transitionToRed p) = true))
    ∧ ((l.all (fun p => !transitionToRed p) = true) →
        (markBottlenecks false l).get ⟨i, h⟩ = false) := by
  refine ⟨markBottlenecks_get_iff l i h h2, ?_⟩
  intro hall
  cases hg : (markBottlenecks false l).get ⟨i, h⟩ with
  | false => rfl
  | true =>
    have htrans := ((markBottlenecks_get_iff l i h h2).mp hg).1
    have hmem : l.get ⟨i, h2⟩ ∈ l := List.get_mem l i h2
    have hx := List.all_eq_true.mp hall _ hmem
    simp only [List.get_eq_getElem] at htrans hx
    simp [htrans] at hx

/-- C4 (witness): with before and after statuses (GREEN, RED) then (RED, RED),
position 0 is the first transition into RED and is flagged. -/
theorem c4_first_red_transition_witness :
    (markBottlenecks false
        [(Status.green, Status.red), (Status.red, Status.red)]).get
      ⟨0, by decide⟩ = true :=
  (c4_first_red_transition
      [(Status.green, Status.red), (Status.red, Status.red)] 0
      (by decide) (by decide)).1.mpr (by decide)

/-- C5 (counterexample): in the OfferGate chart, a selected offer with no
start date contributes nothing: for month 2026-01 and overhead multiplier 1.8,
a single dateless offer costing 1000 yields a selected offer amount of 0, not
the full 1000 times 1.8 the claim demands. -/
theorem c5_dateless_offer_excluded :
    offerAmount ⟨2026, 1⟩ (18/10) [⟨1000, none⟩] = 0
    ∧ (1000 * (18/10) : ℚ) ≠ 0 := by
  refine ⟨by decide, by norm_num⟩

/-- C5 (amended): in the OfferGate chart an accepted offer with no start date
is excluded — it contributes 0 to the selected amount of every month — until a
date is set; it is the selected requisitions with no target start month that
are treated as starting at the beginning of time (month 2000-01) and
contribute their full cost times the overhead multiplier to every month of the
window. -/
theorem c5_dateless_commitments (m : MonthKey) (mult : ℚ) :
    (∀ o : SrcOffer, o.startDate = none →
        ∀ l, offerAmount m mult (o :: l) = offerAmount m mult l)
    ∧ (∀ o : SrcOffer, o.startDate = none → offerAmount m mult [o] = 0)
    ∧ (∀ r : SrcReq, r.targetStartMonth = none → monthLe ⟨2000, 1⟩ m = true →
        ∀ l, reqAmount m mult (r :: l) = reqBaseCost r * mult + reqAmount m mult l) := by
  refine ⟨?_, ?_, ?_⟩
  · intro o h l
    unfold offerAmount
    rw [List.foldl_cons]
    simp [h]
  · intro o h
    unfold offerAmount
    simp [h]
  · intro r h hm l
    rw [reqAmount_eq_sum, reqAmount_eq_sum]
    simp [List.filter_cons, countsReq, h, hm]

/-- C5 (witness): the amended statement applied to a concrete dateless offer
and a concrete requisition with no target start month, for month 2026-06 and
multiplier 1.8. -/
theorem c5_dateless_commitments_witness :
    offerAmount ⟨2026, 6⟩ (18/10) [⟨1000, none⟩] = 0
    ∧ reqAmount ⟨2026, 6⟩ (18/10) [⟨ReqStatus.rOpen, some 2000, none, none⟩]
        = reqBaseCost ⟨ReqStatus.rOpen, some 2000, none, none⟩ * (18/10)
          + reqAmount ⟨2026, 6⟩ (18/10) [] := by
  refine ⟨(c5_dateless_commitments ⟨2026, 6⟩ (18/10)).2.1 ⟨1000, none⟩ rfl, ?_⟩
  exact (c5_dateless_commitments ⟨2026, 6⟩ (18/10)).2.2
    ⟨ReqStatus.rOpen, some 2000, none, none⟩ rfl (by decide) []

/-- C6 (counterexample): the first Requisitions variant omits the overhead
multiplier: a single open requisition with estimated cost 1000 under
multiplier 1.8 yields pipeline potential 1000 there, while the claim demands
1000 times 1.8 (which the second variant computes). -/
theorem c6_overhead_missing_in_first_variant :
    pipelinePotentialNoOverhead [⟨ReqStatus.rOpen, some 1000, none, none⟩] = 1000
    ∧ pipelinePotentialWithOverhead [⟨ReqStatus.rOpen, some 1000, none, none⟩] (18/10)
        = 1800
    ∧ (1000 : ℚ) ≠ 1000 * (18/10) := by
  refine ⟨?_, ?_, by norm_num⟩
  · unfold pipelinePotentialNoOverhead
    rw [foldl_add_shift, zero_add]
    simp [List.filter_cons, inProgress]
  · unfold pipelinePotentialWithOverhead
    rw [foldl_add_shift, zero_add]
    simp [List.filter_cons, inProgress, jsOr]
    norm_num

/-- C6 (amended): both Requisitions variants sum over exactly the open or
interviewing requisitions with no pro rata discount; the second variant
multiplies each term (estimated cost, falling back to the job catalog cost) by
the overhead multiplier, while the first sums the raw estimated costs without
the multiplier. -/
theorem c6_pipeline_potential (reqs : List SrcReq) (mult : ℚ) :
    pipelinePotentialWithOverhead reqs mult
      = ((reqs.filter (fun r => inProgress r.status)).map
          (fun r => reqBaseCost r * mult)).sum
    ∧ pipelinePotentialNoOverhead reqs
      = ((reqs.filter (fun r => inProgress r.status)).map
          (fun r => r.estimatedMonthlyCost.getD 0)).sum := by
  constructor
  · unfold pipelinePotentialWithOverhead reqBaseCost
    rw [foldl_add_shift, zero_add]
  · unfold pipelinePotentialNoOverhead
    rw [foldl_add_shift, zero_add]

/-- C7: an impact preview with a months ahead count at most 0, or with any
candidate offer id that does not resolve against the store, reports
InvalidRequestError and returns no result; a successful call returns a
complete mapping, one impact per month of the window in chronological order;
the what if preview rejects a nonpositive months ahead count and likewise
returns a complete window on success. -/
theorem c7_invalid_request_errors (inp : EngineInputs) (db : List StoredOffer)
    (accepted : List EOffer) (start : MonthKey) (ids : List ℕ)
    (positions : List HypoPosition) (monthsAhead : ℤ) :
    (monthsAhead ≤ 0 →
      previewImpact inp db accepted start ids monthsAhead
        = Except.error "InvalidRequestError")
    ∧ ((∃ i ∈ ids, db.find? (fun s => s.id == i) = none) →
      previewImpact inp db accepted start ids monthsAhead
        = Except.error "InvalidRequestError")
    ∧ (∀ res, previewImpact inp db accepted start ids monthsAhead = Except.ok res →
        res.length = monthsAhead.toNat
        ∧ ∀ (k : ℕ) (hk : k < res.length), (res.get ⟨k, hk⟩).month = addMonths start k)
    ∧ (monthsAhead ≤ 0 →
      previewNewPositions inp accepted start positions monthsAhead
        = Except.error "InvalidRequestError")
    ∧ (∀ res, previewNewPositions inp accepted start positions monthsAhead
          = Except.ok res → res.length = monthsAhead.toNat) := by
  have hwlen : (monthsWindow start monthsAhead.toNat).length = monthsAhead.toNat := by
    simp [monthsWindow]
  refine ⟨?_, ?_, ?_, ?_, ?_⟩
  · intro hm
    unfold previewImpact
    rw [if_pos hm]
  · rintro ⟨i, hi, hf⟩
    unfold previewImpact
    by_cases hm : monthsAhead ≤ 0
    · rw [if_pos hm]
    · rw [if_neg hm, resolveAll_eq_none db ids i hi hf]
  · intro res hres
    unfold previewImpact at hres
    by_cases hm : monthsAhead ≤ 0
    · rw [if_pos hm] at hres
      exact absurd hres (by simp)
    · rw [if_neg hm] at hres
      cases hra : resolveAll db ids with
      | none => rw [hra] at hres; exact absurd hres (by simp)
      | some cands =>
        rw [hra] at hres
        have hres2 : buildImpacts inp accepted (accepted ++ cands)
            (monthsWindow start monthsAhead.toNat) = res := by
          exact Except.ok.inj hres
        subst hres2
        constructor
        · rw [buildImpacts_length, hwlen]
        · intro k hk
          have hk2 : k < (monthsWindow start monthsAhead.toNat).length := by
            rw [hwlen]
            rw [buildImpacts_length, hwlen] at hk
            exact hk
          rw [buildImpacts_get_month _ _ _ _ k hk hk2]
          simp [monthsWindow]
  · intro hm
    unfold previewNewPositions
    rw [if_pos hm]
  · intro res hres
    unfold previewNewPositions at hres
    by_cases hm : monthsAhead ≤ 0
    · rw [if_pos hm] at hres
      exact absurd hres (by simp)
    · rw [if_neg hm] at hres
      have hres2 := Except.ok.inj hres
      subst hres2
      rw [buildImpacts_length, hwlen]

/-- C7 (witness): a preview with months ahead 0 and empty inputs reports
InvalidRequestError. -/
theorem c7_invalid_request_errors_witness :
    previewImpact ⟨[], [], [], 18/10⟩ [] [] ⟨2026, 1⟩ [] 0
      = Except.error "InvalidRequestError" :=
  (c7_invalid_request_errors ⟨[], [], [], 18/10⟩ [] [] ⟨2026, 1⟩ [] [] 0).1
    (by norm_num)

/-- C8: committedForMonth over a permutation of the offer list yields the same
sum, the same holds of the OfferGate chart reduction over its offer rows, and
committedForMonth is the sum of exactly one term per offer in the list (no
offer is counted twice in one call). -/
theorem c8_order_independence (m : MonthKey) (mult : ℚ) (l l2 : List EOffer)
    (h : l.Perm l2) (ol ol2 : List SrcOffer) (h2 : ol.Perm ol2) :
    committedForMonth m l mult = committedForMonth m l2 mult
    ∧ offerAmount m mult ol = offerAmount m mult ol2
    ∧ committedForMonth m l mult
        = (l.map (fun o =>
            if startsByEndOf (effectiveStart o) m then
              offerCost o * mult * proRataFraction (effectiveStart o) m
            else 0)).sum := by
  refine ⟨?_, ?_, ?_⟩
  · rw [committedForMonth_eq_sum, committedForMonth_eq_sum]
    exact ((h.filter _).map _).sum_eq
  · rw [offerAmount_eq_sum, offerAmount_eq_sum]
    exact ((h2.filter _).map _).sum_eq
  · rw [committedForMonth_eq_sum]
    exact sum_filter_map _ _ l

/-- C8 (witness): two concrete offers supplied in both orders give the same
committed amount for 2026-04, and the OfferGate reduction agrees on a swapped
pair of offer rows. -/
theorem c8_order_independence_witness :
    committedForMonth ⟨2026, 4⟩
        [⟨1000, none, some ⟨2026, 1, 1⟩⟩, ⟨2000, some 2500, none⟩]
        (18/10)
      = committedForMonth ⟨2026, 4⟩
          [⟨2000, some 2500, none⟩, ⟨1000, none, some ⟨2026, 1, 1⟩⟩]
          (18/10)
    ∧ offerAmount ⟨2026, 4⟩ (18/10) [⟨1000, some ⟨2026, 1, 1⟩⟩, ⟨2000, none⟩]
      = offerAmount ⟨2026, 4⟩ (18/10) [⟨2000, none⟩, ⟨1000, some ⟨2026, 1, 1⟩⟩] := by
  have h := c8_order_independence ⟨2026, 4⟩ (18/10)
    [⟨1000, none, some ⟨2026, 1, 1⟩⟩, ⟨2000, some 2500, none⟩]
    [⟨2000, some 2500, none⟩, ⟨1000, none, some ⟨2026, 1, 1⟩⟩]
    (List.Perm.swap _ _ [])
    [⟨1000, some ⟨2026, 1, 1⟩⟩, ⟨2000, none⟩]
    [⟨2000, none⟩, ⟨1000, some ⟨2026, 1, 1⟩⟩]
    (List.Perm.swap _ _ [])
  exact ⟨h.1, h.2.1⟩

/-- C9: for nonnegative budget, allocated and selected amounts, every segment
of the stacked chart decomposition is nonnegative, the displayed allocated,
selected and unallocated segments sum exactly to the budget, and the excess
segment equals max 0 (allocated + selected - budget). -/
theorem c9_chart_decomposition (b a s : ℚ) (hb : 0 ≤ b) (ha : 0 ≤ a) (hs : 0 ≤ s) :
    0 ≤ (chartEntry b a s).alocado
    ∧ 0 ≤ (chartEntry b a s).selecionadas
    ∧ 0 ≤ (chartEntry b a s).naoAlocado
    ∧ 0 ≤ (chartEntry b a s).excedente
    ∧ (chartEntry b a s).alocado + (chartEntry b a s).selecionadas
        + (chartEntry b a s).naoAlocado = b
    ∧ (chartEntry b a s).excedente = max 0 (a + s - b) := by
  unfold chartEntry
  dsimp only
  refine ⟨?_, ?_, ?_, ?_, ?_, ?_⟩ <;>
    · simp only [min_def, max_def]
      split_ifs <;> linarith

/-- C9 (witness): the decomposition at budget 1000, allocated 600, selected
700: segments 600, 400, 0 sum to the budget and the excess is 300. -/
theorem c9_chart_decomposition_witness :
    0 ≤ (chartEntry 1000 600 700).alocado
    ∧ 0 ≤ (chartEntry 1000 600 700).selecionadas
    ∧ 0 ≤ (chartEntry 1000 600 700).naoAlocado
    ∧ 0 ≤ (chartEntry 1000 600 700).excedente
    ∧ (chartEntry 1000 600 700).alocado + (chartEntry 1000 600 700).selecionadas
        + (chartEntry 1000 600 700).naoAlocado = 1000
    ∧ (chartEntry 1000 600 700).excedente = max 0 (600 + 700 - 1000) :=
  c9_chart_decomposition 1000 600 700 (by norm_num) (by norm_num) (by norm_num)

/-- C10: the budget and actual save handlers never call the create API with a
missing (NaN) or nonpositive amount — when the parse fails or yields a value
at most 0 no payload is produced, and any payload produced is strictly
positive; the editable cell calls onSave only with a parsed number strictly
greater than 0 and different from the current value. -/
theorem c10_save_guards (m : MonthKey) (parsed : Option ℚ) (value : ℚ) :
    (∀ pl, saveBudget m parsed = some pl → 0 < pl.approvedAmount)
    ∧ (∀ pl, saveActual m parsed = some pl → 0 < pl.amount)
    ∧ (∀ x, editableCellSave value parsed = some x → 0 < x ∧ x ≠ value)
    ∧ (parsed = none →
        saveBudget m parsed = none ∧ saveActual m parsed = none
          ∧ editableCellSave value parsed = none)
    ∧ (∀ v, parsed = some v → v ≤ 0 →
        saveBudget m parsed = none ∧ saveActual m parsed = none) := by
  refine ⟨?_, ?_, ?_, ?_, ?_⟩
  · intro pl hpl
    cases parsed with
    | none => exact absurd hpl (by simp [saveBudget])
    | some v =>
      have hpl2 : (if v ≤ 0 then (none : Option BudgetPayload) else some ⟨m, v⟩)
          = some pl := hpl
      by_cases hv : v ≤ 0
      · rw [if_pos hv] at hpl2
        exact absurd hpl2 (by simp)
      · rw [if_neg hv] at hpl2
        cases Option.some.inj hpl2
        exact lt_of_not_le hv
  · intro pl hpl
    cases parsed with
    | none => exact absurd hpl (by simp [saveActual])
    | some v =>
      have hpl2 : (if v ≤ 0 then (none : Option ActualPayload) else some ⟨m, v⟩)
          = some pl := hpl
      by_cases hv : v ≤ 0
      · rw [if_pos hv] at hpl2
        exact absurd hpl2 (by simp)
      · rw [if_neg hv] at hpl2
        cases Option.some.inj hpl2
        exact lt_of_not_le hv
  · intro x hx
    cases parsed with
    | none => exact absurd hx (by simp [editableCellSave])
    | some p =>
      have hx2 : (if 0 < p ∧ p ≠ value then some p else (none : Option ℚ))
          = some x := hx
      by_cases hp : 0 < p ∧ p ≠ value
      · rw [if_pos hp] at hx2
        cases Option.some.inj hx2
        exact hp
      · rw [if_neg hp] at hx2
        exact absurd hx2 (by simp)
  · rintro rfl
    exact ⟨rfl, rfl, rfl⟩
  · rintro v rfl hv
    constructor
    · show (if v ≤ 0 then (none : Option BudgetPayload) else some ⟨m, v⟩) = none
      rw [if_pos hv]
    · show (if v ≤ 0 then (none : Option ActualPayload) else some ⟨m, v⟩) = none
      rw [if_pos hv]

/-- C10 (witness): a parsed value of 5 against a current value of 3 passes the
editable cell guard: onSave receives a positive value different from the
current one. -/
theorem c10_save_guards_witness : (0 : ℚ) < 5 ∧ (5 : ℚ) ≠ 3 :=
  (c10_save_guards ⟨2026, 1⟩ (some 5) 3).2.2.1 5
    (by norm_num [editableCellSave])

end HRBudget
